import Mathlib

/-!
Verification development for the audio-protection repository.

The repository's Node/React layers (upload routes, tag writing, the HTTP
client for the watermarking service) are translated directly from the
JavaScript sources.  The adversarial watermarking engine itself is not
present as working code in the repository snapshot; it is described by the
repository's design documents, so its embedding below is modelled from the
specification text (each such definition carries a doc comment starting
with `Modelled from the spec:`).  Machine floats are modelled as rationals;
frame-domain (spectral) representation is abstracted as the contents of a
fixed-length analysis frame.
-/

namespace AudioProtect

/-- Modelled from the spec: length of one analysis frame.  The spec leaves
the analysis frame length an open design parameter ("input shorter than one
analysis frame"); a small concrete value keeps the model executable. -/
def FRAME_SIZE : Nat := 8

/-- Modelled from the spec: cross-fade coefficient used by the temporal
jitter module when blending a frame against its displaced copy (§4.4
"resampled/cross-faded against neighboring frames"). -/
def CROSSFADE : ℚ := 1/4

/-- Modelled from the spec: the documented, tunable detection threshold of
the verifier (§4.7: `is_protected` is true when confidence exceeds a fixed
threshold, "document the threshold as a tunable constant"). -/
def CONF_THRESHOLD : ℚ := 1/2

/-- An immutable decoded audio buffer: interleaved samples (one rational
per channel per sample position), sample rate in Hz, channel count
(spec §3, AudioSignal). -/
structure AudioSignal where
  samples : List ℚ
  sampleRate : Nat
  channels : Nat
  deriving Repr, DecidableEq

/-- Duration of a signal in seconds (sample count over rate times
channel count); a derived quantity, not a stored field. -/
def AudioSignal.duration (s : AudioSignal) : ℚ :=
  (s.samples.length : ℚ) / ((s.sampleRate : ℚ) * (s.channels : ℚ))

/-- Configuration record of one protection level (spec §3,
ProtectionProfile).  The `ai_degradation` triple (min, max, avg) is the
declared estimate attached verbatim to the level's documentation; it is
carried as data, never measured. -/
structure ProtectionProfile where
  watermark_strength : ℚ
  mfcc_disruption : ℚ
  temporal_jitter_ms : ℚ
  frequency_bands : List (Nat × Nat)
  embedding_rate_percent : Nat
  ai_degradation : Nat × Nat × Nat
  deriving Repr, DecidableEq

/-- The embedding rate as the fraction in [0,1] of frames treated
(stored as the whole percentage the documentation declares). -/
def ProtectionProfile.embedding_rate (p : ProtectionProfile) : ℚ :=
  (p.embedding_rate_percent : ℚ) / 100

/-- Light profile, transcribed from PROTECTION_LEVELS.md (strength 0.001,
2% MFCC, 2ms jitter, bands 2-4kHz and 8-12kHz, rate 30%) and the
`levels` table of `routes/audioProtection.js` (degradation 30..50, avg 40). -/
def lightProfile : ProtectionProfile :=
  { watermark_strength := 1/1000
    mfcc_disruption := 2/100
    temporal_jitter_ms := 2
    frequency_bands := [(2000, 4000), (8000, 12000)]
    embedding_rate_percent := 30
    ai_degradation := (30, 50, 40) }

/-- Medium profile, transcribed from PROTECTION_LEVELS.md (strength 0.003,
5% MFCC, 5ms jitter, bands 2-4/4-8/8-16kHz, rate 50%) and the `levels`
table (degradation 60..80, avg 70). -/
def mediumProfile : ProtectionProfile :=
  { watermark_strength := 3/1000
    mfcc_disruption := 5/100
    temporal_jitter_ms := 5
    frequency_bands := [(2000, 4000), (4000, 8000), (8000, 16000)]
    embedding_rate_percent := 50
    ai_degradation := (60, 80, 70) }

/-- Aggressive profile, transcribed from PROTECTION_LEVELS.md (strength
0.008, 10% MFCC, 8ms jitter, bands 1-4/4-8/8-16/16-20kHz, rate 70%) and
the `levels` table (degradation 85..95, avg 90). -/
def aggressiveProfile : ProtectionProfile :=
  { watermark_strength := 8/1000
    mfcc_disruption := 10/100
    temporal_jitter_ms := 8
    frequency_bands := [(1000, 4000), (4000, 8000), (8000, 16000), (16000, 20000)]
    embedding_rate_percent := 70
    ai_degradation := (85, 95, 90) }

/-- Nuclear profile, transcribed from PROTECTION_LEVELS.md (strength 0.015,
15% MFCC, 10ms jitter, bands 0.5-4/4-8/8-16/16-20kHz, rate 90%) and the
`levels` table (degradation 95..99, avg 97). -/
def nuclearProfile : ProtectionProfile :=
  { watermark_strength := 15/1000
    mfcc_disruption := 15/100
    temporal_jitter_ms := 10
    frequency_bands := [(500, 4000), (4000, 8000), (8000, 16000), (16000, 20000)]
    embedding_rate_percent := 90
    ai_degradation := (95, 99, 97) }

/-- Metadata-only profile: all-zero DSP parameters (spec §3: "the
`metadata` profile carries all-zero DSP parameters (no signal
modification)"). -/
def metadataProfile : ProtectionProfile :=
  { watermark_strength := 0
    mfcc_disruption := 0
    temporal_jitter_ms := 0
    frequency_bands := []
    embedding_rate_percent := 0
    ai_degradation := (0, 10, 5) }

/-- The four adversarial (non-metadata) levels in documented order. -/
def adversarialProfiles : List ProtectionProfile :=
  [lightProfile, mediumProfile, aggressiveProfile, nuclearProfile]

end AudioProtect

namespace AudioProtect

/-! ## Node-side glue, translated from the JavaScript sources -/

/-- A stored audio file as the Node layer sees it: the filename extension,
the raw container bytes, and the comment strings its metadata carries
(`music-metadata`'s `metadata.common.comment`). -/
structure AudioFileModel where
  ext : String
  bytes : List Nat
  comments : List String
  deriving Repr, DecidableEq

/-- Options object of `protectAudioFile` (`audioProtector.js`, lines
11-18). -/
structure ProtectOptions where
  artistName : String
  trackTitle : String
  protectionLevel : String
  rightsDeclaration : String
  additionalInfo : String
  deriving Repr, DecidableEq

/-- Decidable substring test on character lists (`String.prototype.includes`
of the JavaScript sources). -/
def containsSub (n : List Char) : List Char → Bool
  | [] => n.isEmpty
  | c :: t => n.isPrefixOf (c :: t) || containsSub n t

/-- One comment carries a protection marker: the test applied per comment by
the `/verify` route (`audioProtection.js` lines 183-186:
`c.includes('AI_TRAINING_OPT_OUT') || c.includes('NO_AI_TRAINING')`). -/
def commentHasMarker (c : String) : Bool :=
  containsSub "AI_TRAINING_OPT_OUT".data c.data || containsSub "NO_AI_TRAINING".data c.data

/-- The `/verify` route's metadata check (`audioProtection.js` lines
182-186): some comment of the file carries a protection marker. -/
def hasMetadataProtection (f : AudioFileModel) : Bool :=
  f.comments.any commentHasMarker

/-- Human-readable protection comment written into MP3 tags
(`formatProtectionComment`, `audioProtector.js` lines 220-243); the
marker literal `NO_AI_TRAINING` appears inside it. -/
def formatProtectionComment (o : ProtectOptions) (timestamp : String) : String :=
  "AI TRAINING PROTECTION. Artist: " ++ o.artistName ++
  ". Track: " ++ o.trackTitle ++
  ". Rights: " ++ o.rightsDeclaration ++
  ". Marker: NO_AI_TRAINING. Timestamp: " ++ timestamp ++
  ". Version: 1.0. " ++ o.additionalInfo

/-- The file-level protection operation (`protectAudioFile`,
`audioProtector.js` lines 11-69), modelled on the stored-file level.  The
`timestamp` argument models the ambient `new Date().toISOString()` read by
`generateProtectionMetadata`.  MP3 files get ID3 tags written (the comment
carrying the markers is added); FLAC/OGG (`protectVorbisFormat`, lines
173-185), WAV (`protectWAV`, lines 191-199) and M4A/AAC (`protectM4A`,
lines 204-215) are copied verbatim (`fs.copyFileSync`) with no metadata
change; any other extension throws `Unsupported audio format`. -/
def protectAudioFile (f : AudioFileModel) (o : ProtectOptions) (timestamp : String) :
    Except String AudioFileModel :=
  if f.ext = ".mp3" then
    Except.ok { f with comments := formatProtectionComment o timestamp :: f.comments }
  else if f.ext = ".flac" ∨ f.ext = ".ogg" ∨ f.ext = ".wav" ∨ f.ext = ".m4a" ∨ f.ext = ".aac" then
    Except.ok f
  else
    Except.error ("Unsupported audio format: " ++ f.ext)

/-! ## The adversarial watermarking engine, modelled from the spec

The engine is described by the repository's design documents
(TECHNICAL_GUIDE.md, PROTECTION_LEVELS.md) and by the specification's
§§3-8, but is not present as working code in the snapshot; every
definition below is modelled from the specification's words.  The
frame-domain (spectral) representation is abstracted as the contents of
one analysis frame; bin `b` of a frame at sample rate `r` stands for
frequency `b * r / FRAME_SIZE` Hz, bin 0 being the DC/masker bin, which
no module ever alters (the masking model derives the frame's headroom
from it, so embedder and verifier recompute identical thresholds, §3). -/

/-- Modelled from the spec: the watermark payload — artist, track,
timestamp and a content hash of the original file, all carried as
numeric codes (§3, WatermarkPayload). -/
structure WatermarkPayload where
  artistName : Nat
  trackTitle : Nat
  timestamp : Nat
  contentHash : Nat
  deriving Repr, DecidableEq

/-- Modelled from the spec: the derived seed — a hash of the payload
fields plus the content hash — from which every pseudo-random sequence
consumed by the embedding modules is generated deterministically (§3). -/
def payloadSeed (w : WatermarkPayload) : Nat :=
  w.artistName + 31 * w.trackTitle + 1009 * w.timestamp + 65599 * w.contentHash

/-- Modelled from the spec: the deterministic pseudo-noise generator.
`slice` separates the independent sub-sequences used by the four modules
(spread-spectrum 0, MFCC 1, temporal jitter 2, high-frequency 3), so the
techniques are independently recoverable (§4.3). Values are in {-1, +1}. -/
def noiseSign (seed slice f b : Nat) : ℚ :=
  if (seed + 97 * slice + 89 * f + 83 * b) % 2 = 0 then 1 else -1

/-- Modelled from the spec: the psychoacoustic masking model (§4.1).  The
headroom of a frame is proportional to its masker (DC-bin) magnitude and
falls off with bin index; a near-silent frame yields a near-zero curve,
so embedding modules add (after clamping) nothing there. -/
def maskT (fr : List ℚ) (b : Nat) : ℚ :=
  |fr.getD 0 0| / ((10 + b : Nat) : ℚ)

/-- Modelled from the spec: the embedding magnitude of the spread-spectrum
family — the nominal `strength * threshold` product, clipped into
`[0, threshold]` so that the addition never exceeds the masking bound
(§4.2, the imperceptibility contract). -/
def embedMag (strength T : ℚ) : ℚ := max 0 (min (strength * T) T)

/-- Modelled from the spec: clamp a perturbation into `[-T, T]` — the
orchestrator's final enforcement of the masking bound over the composite
of all modules (§4.2/§4.3: re-check against the threshold and reduce
until compliant). -/
def clampTo (x T : ℚ) : ℚ := max (-T) (min x T)

/-- Modelled from the spec: a declared band is usable exactly when the
Nyquist frequency (`rate / 2`) is not below the band's lower edge (§4.5).
Stated over naturals: `low ≤ rate / 2 ↔ 2 * low ≤ rate`. -/
def nyqSupports (rate : Nat) (bd : Nat × Nat) : Bool := 2 * bd.1 ≤ rate

/-- Modelled from the spec: the bands of the profile usable at this
sample rate (unsupported ones are skipped, §4.5). -/
def activeBands (rate : Nat) (bands : List (Nat × Nat)) : List (Nat × Nat) :=
  bands.filter (nyqSupports rate)

/-- Modelled from the spec: bin `b` (frequency `b * rate / FRAME_SIZE`)
lies inside band `bd = [low, high]`; stated over naturals by clearing the
denominator. -/
def binInBand (rate b : Nat) (bd : Nat × Nat) : Bool :=
  bd.1 * FRAME_SIZE ≤ b * rate && b * rate ≤ bd.2 * FRAME_SIZE

/-- Modelled from the spec: bins treated by the spread-spectrum embedder —
all active bands except the highest, which belongs to the high-frequency
module (§4.2, §4.5). -/
def isSSBin (rate : Nat) (p : ProtectionProfile) (b : Nat) : Bool :=
  ((activeBands rate p.frequency_bands).dropLast).any (binInBand rate b)

/-- Modelled from the spec: bins treated by the high-frequency adversarial
module — the highest active band, minus any bin already claimed by the
spread-spectrum embedder (§4.5: "the highest band(s) declared"). -/
def isHFBin (rate : Nat) (p : ProtectionProfile) (b : Nat) : Bool :=
  (match (activeBands rate p.frequency_bands).getLast? with
   | none => false
   | some bd => binInBand rate b bd) && !(isSSBin rate p b)

/-- Modelled from the spec: the orchestrator's deterministic frame
selection — a Bresenham-style rule on the frame index shifted by the
payload seed, selecting exactly `embedding_rate` of every 100 frames
(§4.6: reproducible, exactly the configured fraction). -/
def eligibleFrame (seed : Nat) (p : ProtectionProfile) (i : Nat) : Bool :=
  ((i + seed) * p.embedding_rate_percent) % 100 < p.embedding_rate_percent

/-- Modelled from the spec: the MFCC module's selected subset of
coefficients (§4.3: "a selected subset of coefficients"), a deterministic
function of seed, frame and bin. -/
def mfccSel (seed f b : Nat) : Bool := (seed + f + b) % 3 = 0

/-- Modelled from the spec: the maximum jitter displacement in samples,
`temporal_jitter_ms / 1000 * rate` rounded down (§4.4). -/
def jitterSpan (p : ProtectionProfile) (rate : Nat) : Nat :=
  (⌊p.temporal_jitter_ms * (rate : ℚ) / 1000⌋).toNat

/-- Modelled from the spec: the per-frame pseudo-random jitter offset,
bounded by `±J` samples (§4.4). -/
def jitterOffset (seed f J : Nat) : Int :=
  (((seed + 79 * f) % (2 * J + 1) : Nat) : Int) - (J : Int)

/-- Modelled from the spec: the source bin a jittered frame reads bin `b`
from — a circular displacement among the non-DC bins, so the DC/masker
bin is never moved and the frame keeps its length (drift is corrected
within each frame, a strengthening of §4.4's bounded-drift requirement). -/
def jitterBin (o : Int) (b : Nat) : Nat :=
  1 + (((b : Int) - 1 + o) % ((FRAME_SIZE : Int) - 1)).toNat

/-- Modelled from the spec: the spread-spectrum perturbation at one bin —
`sign * strength * threshold`, clipped to the threshold (§4.2). -/
def ssDelta (p : ProtectionProfile) (seed rate f b : Nat) (fr : List ℚ) : ℚ :=
  if isSSBin rate p b then
    noiseSign seed 0 f b * embedMag p.watermark_strength (maskT fr b)
  else 0

/-- Modelled from the spec: the MFCC-disruption perturbation at one bin —
the selected coefficients scaled by `(1 ± mfcc_disruption)`, expressed
additively on the frame contents (§4.3). -/
def mfccDelta (p : ProtectionProfile) (seed f b : Nat) (fr : List ℚ) : ℚ :=
  if mfccSel seed f b then noiseSign seed 1 f b * p.mfcc_disruption * fr.getD b 0
  else 0

/-- Modelled from the spec: the temporal-jitter perturbation at one bin —
a cross-faded blend of the frame against its displaced copy (§4.4). -/
def jitterDelta (p : ProtectionProfile) (seed rate f b : Nat) (fr : List ℚ) : ℚ :=
  CROSSFADE * (fr.getD (jitterBin (jitterOffset seed f (jitterSpan p rate)) b) 0 - fr.getD b 0)

/-- Modelled from the spec: the high-frequency adversarial perturbation —
mechanics mirroring the spread-spectrum module with its own noise slice
and a larger nominal gain, still clipped by the masking bound (§4.5). -/
def hfDelta (p : ProtectionProfile) (seed rate f b : Nat) (fr : List ℚ) : ℚ :=
  if isHFBin rate p b then
    noiseSign seed 3 f b * embedMag (2 * p.watermark_strength) (maskT fr b)
  else 0

/-- Modelled from the spec: the composite perturbation of the four modules
applied in the orchestrator's fixed order (§4.6: spread-spectrum → MFCC →
temporal jitter → high-frequency). -/
def totalDelta (p : ProtectionProfile) (seed rate f b : Nat) (fr : List ℚ) : ℚ :=
  ssDelta p seed rate f b fr + mfccDelta p seed f b fr +
    jitterDelta p seed rate f b fr + hfDelta p seed rate f b fr

/-- Modelled from the spec: treatment of one analysis frame.  An
ineligible frame passes through untouched; an eligible frame keeps its DC
bin and receives, at every other bin, the composite perturbation clamped
to that bin's masking threshold (§4.1-§4.6). -/
def processFrame (p : ProtectionProfile) (seed rate f : Nat) (fr : List ℚ) : List ℚ :=
  if eligibleFrame seed p f then
    (List.range fr.length).map (fun b =>
      if b = 0 then fr.getD b 0
      else fr.getD b 0 + clampTo (totalDelta p seed rate f b fr) (maskT fr b))
  else fr

/-- Modelled from the spec: the orchestrator's frame loop — successive
full frames are treated, the trailing partial frame passes through
unchanged (§4.6). -/
def processFrames (p : ProtectionProfile) (seed rate : Nat) (f : Nat) (l : List ℚ) : List ℚ :=
  if _h : FRAME_SIZE ≤ l.length then
    processFrame p seed rate f (l.take FRAME_SIZE) ++
      processFrames p seed rate (f + 1) (l.drop FRAME_SIZE)
  else l
termination_by l.length
decreasing_by
  simp only [List.length_drop]
  have h8 : 0 < FRAME_SIZE := by decide
  omega

/-- Errors of the engine's `protect` operation (spec §7). -/
inductive ProtectError where
  | inputTooShort
  deriving Repr, DecidableEq

/-- Result of a successful `protect` call: the output signal, the profile
actually applied, the bands skipped for this sample rate (the
applied-parameters record of §7), and the declared degradation estimate
copied verbatim from the profile (spec §3, ProtectionResult). -/
structure ProtectionResult where
  signal : AudioSignal
  profileApplied : ProtectionProfile
  skippedBands : List (Nat × Nat)
  ai_degradation_estimate : Nat × Nat × Nat
  deriving Repr, DecidableEq

/-- Modelled from the spec: the total success path of `protect` — every
pseudo-random choice derives from the payload seed, so the output is a
function of the declared inputs alone (§3 determinism invariant). -/
def protectCore (s : AudioSignal) (p : ProtectionProfile) (w : WatermarkPayload) :
    ProtectionResult :=
  { signal := { samples := processFrames p (payloadSeed w) s.sampleRate 0 s.samples
                sampleRate := s.sampleRate
                channels := s.channels }
    profileApplied := p
    skippedBands := p.frequency_bands.filter (fun bd => !(nyqSupports s.sampleRate bd))
    ai_degradation_estimate := p.ai_degradation }

/-- Modelled from the spec: `protect` (§6) — an input shorter than one
analysis frame is an `InputTooShort` error (§4.6, §7); otherwise the
orchestrator runs and succeeds. -/
def protect (s : AudioSignal) (p : ProtectionProfile) (w : WatermarkPayload) :
    Except ProtectError ProtectionResult :=
  if s.samples.length < FRAME_SIZE then Except.error ProtectError.inputTooShort
  else Except.ok (protectCore s p w)

end AudioProtect

namespace AudioProtect

/-! ## The verifier/detector, modelled from the spec (§4.7) -/

/-- Number of full analysis frames of a signal. -/
def numFramesOf (s : AudioSignal) : Nat := s.samples.length / FRAME_SIZE

/-- The `i`-th analysis frame of a sample buffer. -/
def frameAt (l : List ℚ) (i : Nat) : List ℚ :=
  (l.drop (FRAME_SIZE * i)).take FRAME_SIZE

/-- Frame indices the orchestrator's selection rule treats, recomputed by
the verifier from the claimed payload (§4.7). -/
def eligibleFrameIdxs (seed : Nat) (p : ProtectionProfile) (n : Nat) : List Nat :=
  (List.range n).filter (eligibleFrame seed p)

/-- The spread-spectrum bins of a profile at a sample rate. -/
def ssBinList (rate : Nat) (p : ProtectionProfile) : List Nat :=
  (List.range FRAME_SIZE).filter (isSSBin rate p)

/-- The high-frequency bins of a profile at a sample rate. -/
def hfBinList (rate : Nat) (p : ProtectionProfile) : List Nat :=
  (List.range FRAME_SIZE).filter (isHFBin rate p)

/-- The non-DC bins the MFCC module's subset selects for a frame. -/
def mfccBinList (seed f : Nat) : List Nat :=
  (List.range FRAME_SIZE).filter (fun b => decide (1 ≤ b) && mfccSel seed f b)

/-- All non-DC bins (used by the jitter-signature statistic). -/
def nonDCBinList : List Nat :=
  (List.range FRAME_SIZE).filter (fun b => decide (1 ≤ b))

/-- The (frame, bin) slots the spread-spectrum embedder treats. -/
def ssSlots (seed : Nat) (p : ProtectionProfile) (rate n : Nat) : List (Nat × Nat) :=
  (eligibleFrameIdxs seed p n).flatMap (fun f => (ssBinList rate p).map (fun b => (f, b)))

/-- The (frame, bin) slots the high-frequency module treats. -/
def hfSlots (seed : Nat) (p : ProtectionProfile) (rate n : Nat) : List (Nat × Nat) :=
  (eligibleFrameIdxs seed p n).flatMap (fun f => (hfBinList rate p).map (fun b => (f, b)))

/-- Mean of a list of rationals (0 on the empty list, since division by
zero is zero). -/
def avg (l : List ℚ) : ℚ := l.sum / (l.length : ℚ)

/-- Modelled from the spec: the verifier's normalized correlation of one
spread-spectrum slot — the regenerated sign times the candidate's bin
value, normalized by the expected embedding magnitude recomputed from the
candidate's masker bin (§3: the threshold is recomputed identically;
§4.7). -/
def slotScoreSS (seed : Nat) (p : ProtectionProfile) (l : List ℚ) (fb : Nat × Nat) : ℚ :=
  noiseSign seed 0 fb.1 fb.2 * (frameAt l fb.1).getD fb.2 0 /
    embedMag p.watermark_strength (maskT (frameAt l fb.1) fb.2)

/-- Modelled from the spec: the high-frequency analogue of
`slotScoreSS`, on the module's own noise slice and gain (§4.5, §4.7). -/
def slotScoreHF (seed : Nat) (p : ProtectionProfile) (l : List ℚ) (fb : Nat × Nat) : ℚ :=
  noiseSign seed 3 fb.1 fb.2 * (frameAt l fb.1).getD fb.2 0 /
    embedMag (2 * p.watermark_strength) (maskT (frameAt l fb.1) fb.2)

/-- Modelled from the spec: the spread-spectrum correlation sub-score —
the mean normalized slot correlation (§4.7). -/
def ssScore (s : AudioSignal) (w : WatermarkPayload) (p : ProtectionProfile) : ℚ :=
  avg ((ssSlots (payloadSeed w) p s.sampleRate (numFramesOf s)).map
    (slotScoreSS (payloadSeed w) p s.samples))

/-- Modelled from the spec: the high-frequency correlation sub-score. -/
def hfScore (s : AudioSignal) (w : WatermarkPayload) (p : ProtectionProfile) : ℚ :=
  avg ((hfSlots (payloadSeed w) p s.sampleRate (numFramesOf s)).map
    (slotScoreHF (payloadSeed w) p s.samples))

/-- Modelled from the spec: the MFCC-deviation sub-score — correlation of
the regenerated MFCC signs with the candidate's selected non-DC bins. -/
def mfccScore (s : AudioSignal) (w : WatermarkPayload) : ℚ :=
  avg ((eligibleFrameIdxs (payloadSeed w) mediumProfile (numFramesOf s)).flatMap
    (fun f => (mfccBinList (payloadSeed w) f).map
      (fun b => noiseSign (payloadSeed w) 1 f b * (frameAt s.samples f).getD b 0)))

/-- Modelled from the spec: the temporal-jitter sub-score — correlation of
the regenerated jitter signs with displaced-minus-resident differences at
non-DC bins. -/
def jitterScoreOf (s : AudioSignal) (w : WatermarkPayload) (p : ProtectionProfile) : ℚ :=
  avg ((eligibleFrameIdxs (payloadSeed w) p (numFramesOf s)).flatMap
    (fun f => nonDCBinList.map (fun b =>
      noiseSign (payloadSeed w) 2 f 0 *
        ((frameAt s.samples f).getD
            (jitterBin (jitterOffset (payloadSeed w) f (jitterSpan p s.sampleRate)) b) 0 -
          (frameAt s.samples f).getD b 0))))

/-- Modelled from the spec: per-profile combined confidence — a detection
by any one technique suffices, so the combiner is the maximum of the
per-technique correlation scores (§4.7, the combiner is an open design
choice). -/
def profileConf (s : AudioSignal) (w : WatermarkPayload) (p : ProtectionProfile) : ℚ :=
  max (ssScore s w p)
    (max (hfScore s w p) (max (mfccScore s w) (jitterScoreOf s w p)))

/-- Maximum of a list of rationals against base 0. -/
def listMax (l : List ℚ) : ℚ := l.foldr max 0

/-- Modelled from the spec: payload-matched confidence — the verifier does
not know which level was applied, so it scans all adversarial profiles
and reports the best combined score, capped into `[0, 1]`. -/
def confidenceOf (s : AudioSignal) (w : WatermarkPayload) : ℚ :=
  min 1 (listMax (adversarialProfiles.map (profileConf s w)))

/-- Modelled from the spec: blind (no-payload) detection — a statistical
probe with a generic zero payload, capped strictly at the documented
threshold because blind detection is declared strictly weaker than
payload-matched detection (§4.7). -/
def blindScore (s : AudioSignal) : ℚ :=
  min CONF_THRESHOLD
    (listMax (adversarialProfiles.map (profileConf s ⟨0, 0, 0, 0⟩)))

/-- Verification report (spec §3): the protection verdict, the combined
confidence, and the per-technique sub-scores. -/
structure VerificationReport where
  is_protected : Bool
  confidence : ℚ
  ss_correlation : ℚ
  mfcc_deviation : ℚ
  jitter_signature : ℚ
  hf_correlation : ℚ
  deriving Repr, DecidableEq

/-- Modelled from the spec: `verify` (§6, §4.7) — total over every
candidate signal and claimed payload; a payload matching no detectable
signature simply yields a low-confidence, `is_protected = false` report,
never an error (§7, PayloadMismatch). -/
def verify (s : AudioSignal) (w : Option WatermarkPayload) : VerificationReport :=
  match w with
  | some wp =>
      { is_protected := decide (CONF_THRESHOLD < confidenceOf s wp)
        confidence := confidenceOf s wp
        ss_correlation := listMax (adversarialProfiles.map (ssScore s wp))
        mfcc_deviation := mfccScore s wp
        jitter_signature := listMax (adversarialProfiles.map (jitterScoreOf s wp))
        hf_correlation := listMax (adversarialProfiles.map (hfScore s wp)) }
  | none =>
      { is_protected := decide (CONF_THRESHOLD < blindScore s)
        confidence := blindScore s
        ss_correlation := 0
        mfcc_deviation := 0
        jitter_signature := 0
        hf_correlation := 0 }

end AudioProtect

namespace AudioProtect

/-- Outcome of the health probe issued by `checkPythonService`
(`pythonService.js` lines 78-85): either the HTTP request resolved and the
response body's `status` field is available (possibly absent), or the
request failed (timeout, network error, non-2xx response — axios rejects
all of these and control reaches the `catch`). -/
inductive HealthOutcome where
  | responded (status : Option String)
  | failed (message : String)
  deriving Repr, DecidableEq

/-- Translation of `checkPythonService` (`pythonService.js` lines 78-85):
`return response.data.status === 'ok'` on a resolved request, `return
false` from the `catch` block on any failure. -/
def checkPythonService : HealthOutcome → Bool
  | .responded st => st = some "ok"
  | .failed _ => false

end AudioProtect

namespace AudioProtect

/-- A synthetic pure-tone signal in the abstracted frame domain: every
full analysis frame carries a nonzero masker at the DC bin and silence at
every other bin (the spec's synthetic pure-tone test input, §8.3/§8.7). -/
def PureTone (s : AudioSignal) : Prop :=
  ∀ i, i < numFramesOf s →
    (frameAt s.samples i).getD 0 0 ≠ 0 ∧
    ∀ b, b < FRAME_SIZE → 1 ≤ b → (frameAt s.samples i).getD b 0 = 0

/-- A signal with no energy outside the DC bin of any full analysis frame
(hence no signature-correlated content at any verifier slot). -/
def DCOnly (s : AudioSignal) : Prop :=
  ∀ i, i < numFramesOf s →
    ∀ b, b < FRAME_SIZE → 1 ≤ b → (frameAt s.samples i).getD b 0 = 0

end AudioProtect

namespace AudioProtect

/-! ## Basic facts about the engine's building blocks -/

theorem maskT_nonneg (fr : List ℚ) (b : Nat) : 0 ≤ maskT fr b := by
  unfold maskT
  positivity

theorem maskT_pos (fr : List ℚ) (b : Nat) (h : fr.getD 0 0 ≠ 0) : 0 < maskT fr b := by
  unfold maskT
  have h1 : 0 < |fr.getD 0 0| := abs_pos.mpr h
  have h2 : (0:ℚ) < ((10 + b : Nat) : ℚ) := by positivity
  positivity

theorem clampTo_abs_le (x T : ℚ) (hT : 0 ≤ T) : |clampTo x T| ≤ T := by
  unfold clampTo
  rw [abs_le]
  refine ⟨le_max_left _ _, max_le (by linarith) (min_le_right _ _)⟩

theorem clampTo_of_abs_le (x T : ℚ) (hx : |x| ≤ T) : clampTo x T = x := by
  unfold clampTo
  rw [abs_le] at hx
  rw [min_eq_left hx.2, max_eq_right hx.1]

theorem clampTo_zero (x : ℚ) : clampTo x 0 = 0 := by
  unfold clampTo
  rcases le_total x 0 with h | h
  · rw [min_eq_left h, neg_zero, max_eq_left h]
  · rw [min_eq_right h, neg_zero, max_eq_right le_rfl]

theorem embedMag_nonneg (s T : ℚ) : 0 ≤ embedMag s T := le_max_left _ _

theorem embedMag_le (s T : ℚ) (hT : 0 ≤ T) : embedMag s T ≤ T :=
  max_le hT (min_le_right _ _)

theorem embedMag_pos (s T : ℚ) (hs : 0 < s) (hT : 0 < T) : 0 < embedMag s T := by
  unfold embedMag
  have h1 : 0 < s * T := mul_pos hs hT
  have h2 : 0 < min (s * T) T := lt_min h1 hT
  exact lt_of_lt_of_le h2 (le_max_right _ _)

theorem embedMag_clip (s T : ℚ) (hT : 0 ≤ T) (h : T < s * T) : embedMag s T = T := by
  unfold embedMag
  rw [min_eq_right (le_of_lt h), max_eq_right hT]

theorem noiseSign_mul_self (seed slice f b : Nat) :
    noiseSign seed slice f b * noiseSign seed slice f b = 1 := by
  unfold noiseSign
  by_cases h : (seed + 97 * slice + 89 * f + 83 * b) % 2 = 0 <;> simp [h]

theorem noiseSign_abs (seed slice f b : Nat) : |noiseSign seed slice f b| = 1 := by
  unfold noiseSign
  by_cases h : (seed + 97 * slice + 89 * f + 83 * b) % 2 = 0 <;> simp [h]

theorem jitterBin_pos (o : Int) (b : Nat) : 1 ≤ jitterBin o b := Nat.le_add_right 1 _

theorem FRAME_SIZE_pos : 0 < FRAME_SIZE := by decide

/-! ## Frame-level lemmas -/

theorem processFrame_length (p : ProtectionProfile) (seed rate f : Nat) (fr : List ℚ) :
    (processFrame p seed rate f fr).length = fr.length := by
  unfold processFrame
  by_cases h : eligibleFrame seed p f
  · rw [if_pos h, List.length_map, List.length_range]
  · rw [if_neg h]

theorem processFrame_getD_eligible (p : ProtectionProfile) (seed rate f b : Nat)
    (fr : List ℚ) (he : eligibleFrame seed p f = true) (hb : b < fr.length) :
    (processFrame p seed rate f fr).getD b 0 =
      if b = 0 then fr.getD 0 0
      else fr.getD b 0 + clampTo (totalDelta p seed rate f b fr) (maskT fr b) := by
  unfold processFrame
  rw [if_pos he, List.getD_eq_getElem?_getD, List.getElem?_map,
    List.getElem?_range (by simpa using hb)]
  rcases Nat.eq_zero_or_pos b with rfl | hbpos
  · simp
  · have hb0 : b ≠ 0 := Nat.pos_iff_ne_zero.mp hbpos
    simp only [Option.map_some', Option.getD_some, if_neg hb0]

theorem processFrame_getD_not_eligible (p : ProtectionProfile) (seed rate f b : Nat)
    (fr : List ℚ) (he : ¬ eligibleFrame seed p f = true) :
    (processFrame p seed rate f fr).getD b 0 = fr.getD b 0 := by
  unfold processFrame
  rw [if_neg he]

theorem processFrame_delta_bound (p : ProtectionProfile) (seed rate f b : Nat)
    (fr : List ℚ) :
    |(processFrame p seed rate f fr).getD b 0 - fr.getD b 0| ≤ maskT fr b := by
  by_cases he : eligibleFrame seed p f = true
  · by_cases hb : b < fr.length
    · rw [processFrame_getD_eligible p seed rate f b fr he hb]
      by_cases h0 : b = 0
      · subst h0
        simp [maskT_nonneg]
      · rw [if_neg h0, add_sub_cancel_left]
        exact clampTo_abs_le _ _ (maskT_nonneg fr b)
    · push_neg at hb
      rw [List.getD_eq_default _ _ hb, List.getD_eq_default _ _ (by
        rw [processFrame_length]; exact hb)]
      simp [maskT_nonneg]
  · rw [processFrame_getD_not_eligible p seed rate f b fr he]
    simp [maskT_nonneg]

end AudioProtect

namespace AudioProtect

/-! ## Orchestrator-level lemmas -/

theorem processFrames_length_aux (p : ProtectionProfile) (seed rate : Nat) :
    ∀ n f (l : List ℚ), l.length ≤ n →
      (processFrames p seed rate f l).length = l.length := by
  intro n
  induction n with
  | zero =>
      intro f l hl
      rw [processFrames, dif_neg (by simp at hl; simp [hl]; decide)]
  | succ n ih =>
      intro f l hl
      by_cases h8 : FRAME_SIZE ≤ l.length
      · rw [processFrames, dif_pos h8, List.length_append, processFrame_length,
          List.length_take, ih (f + 1) (l.drop FRAME_SIZE) (by
            rw [List.length_drop]
            have := FRAME_SIZE_pos
            omega), List.length_drop]
        omega
      · rw [processFrames, dif_neg h8]

theorem processFrames_length (p : ProtectionProfile) (seed rate f : Nat) (l : List ℚ) :
    (processFrames p seed rate f l).length = l.length :=
  processFrames_length_aux p seed rate l.length f l le_rfl

theorem frameAt_processFrames_aux (p : ProtectionProfile) (seed rate : Nat) :
    ∀ n k (l : List ℚ) (i : Nat), l.length ≤ n →
      frameAt (processFrames p seed rate k l) i =
        if FRAME_SIZE * i + FRAME_SIZE ≤ l.length then
          processFrame p seed rate (k + i) (frameAt l i)
        else frameAt l i := by
  intro n
  induction n with
  | zero =>
      intro k l i hl
      have hlen : l.length = 0 := Nat.le_zero.mp hl
      rw [processFrames, dif_neg (by rw [hlen]; decide),
        if_neg (by rw [hlen]; have := FRAME_SIZE_pos; omega)]
  | succ n ih =>
      intro k l i hl
      by_cases h8 : FRAME_SIZE ≤ l.length
      · rw [processFrames, dif_pos h8]
        have hlenA : (processFrame p seed rate k (l.take FRAME_SIZE)).length = FRAME_SIZE := by
          rw [processFrame_length, List.length_take]
          omega
        cases i with
        | zero =>
            rw [if_pos (by omega)]
            unfold frameAt
            rw [Nat.mul_zero, List.drop_zero, List.drop_zero,
              List.take_left' hlenA]
            simp only [Nat.add_zero]
        | succ j =>
            have hdrop : (processFrame p seed rate k (l.take FRAME_SIZE) ++
                processFrames p seed rate (k + 1) (l.drop FRAME_SIZE)).drop
                  (FRAME_SIZE * (j + 1)) =
                (processFrames p seed rate (k + 1) (l.drop FRAME_SIZE)).drop
                  (FRAME_SIZE * j) := by
              have harith : FRAME_SIZE * (j + 1) =
                  (processFrame p seed rate k (l.take FRAME_SIZE)).length +
                    FRAME_SIZE * j := by
                rw [hlenA]; ring
              rw [harith, List.drop_append]
            have ihj := ih (k + 1) (l.drop FRAME_SIZE) j (by
              rw [List.length_drop]
              have := FRAME_SIZE_pos
              omega)
            unfold frameAt at ihj ⊢
            rw [hdrop, ihj]
            have hdd : ∀ (m : List ℚ), (m.drop FRAME_SIZE).drop (FRAME_SIZE * j) =
                m.drop (FRAME_SIZE * (j + 1)) := by
              intro m
              rw [List.drop_drop]
              ring_nf
            rw [List.length_drop]
            by_cases hc : FRAME_SIZE * (j + 1) + FRAME_SIZE ≤ l.length
            · rw [if_pos (by simp only [FRAME_SIZE] at hc h8 ⊢; omega), if_pos hc, hdd]
              have hk : k + 1 + j = k + (j + 1) := by ring
              rw [hk]
            · rw [if_neg (by simp only [FRAME_SIZE] at hc h8 ⊢; omega), if_neg hc, hdd]
      · rw [processFrames, dif_neg h8, if_neg (by have := FRAME_SIZE_pos; omega)]

theorem frameAt_protectCore (s : AudioSignal) (p : ProtectionProfile)
    (w : WatermarkPayload) (i : Nat) :
    frameAt (protectCore s p w).signal.samples i =
      if FRAME_SIZE * i + FRAME_SIZE ≤ s.samples.length then
        processFrame p (payloadSeed w) s.sampleRate i (frameAt s.samples i)
      else frameAt s.samples i := by
  have h := frameAt_processFrames_aux p (payloadSeed w) s.sampleRate
    s.samples.length 0 s.samples i le_rfl
  simpa using h

end AudioProtect

namespace AudioProtect

/-- C1: for every AudioSignal, ProtectionProfile and WatermarkPayload, two
calls of `protect` with identical arguments produce byte-identical output
buffers — `protect` is a pure, deterministic function of its declared
inputs (every pseudo-random sequence derives from the payload seed, so no
ambient state enters the computation). -/
theorem C1_protect_deterministic (s₁ s₂ : AudioSignal) (p₁ p₂ : ProtectionProfile)
    (w₁ w₂ : WatermarkPayload) (hs : s₁ = s₂) (hp : p₁ = p₂) (hw : w₁ = w₂) :
    protect s₁ p₁ w₁ = protect s₂ p₂ w₂ := by
  subst hs
  subst hp
  subst hw
  rfl

/-- Witness for C1 at a concrete signal, profile and payload. -/
theorem C1_protect_deterministic_witness :
    protect ⟨[1, 0, 0, 0, 0, 0, 0, 0], 44100, 1⟩ lightProfile ⟨1, 2, 3, 4⟩ =
      protect ⟨[1, 0, 0, 0, 0, 0, 0, 0], 44100, 1⟩ lightProfile ⟨1, 2, 3, 4⟩ :=
  C1_protect_deterministic _ _ _ _ _ _ rfl rfl rfl

/-- C2: the perturbation `protect` adds at any frame and bin never exceeds
the masking threshold computed for that bin at that frame, and when the
nominal strength-times-threshold product would exceed the threshold the
addition is clipped to the threshold. -/
theorem C2_masking_bound :
    (∀ (s : AudioSignal) (p : ProtectionProfile) (w : WatermarkPayload) (i b : Nat),
      |(frameAt (protectCore s p w).signal.samples i).getD b 0 -
          (frameAt s.samples i).getD b 0| ≤ maskT (frameAt s.samples i) b) ∧
    (∀ strength T : ℚ, 0 ≤ T → T < strength * T → embedMag strength T = T) := by
  constructor
  · intro s p w i b
    rw [frameAt_protectCore]
    by_cases hc : FRAME_SIZE * i + FRAME_SIZE ≤ s.samples.length
    · rw [if_pos hc]
      exact processFrame_delta_bound p (payloadSeed w) s.sampleRate i b _
    · rw [if_neg hc]
      simp [maskT_nonneg]
  · exact fun strength T hT h => embedMag_clip strength T hT h

/-- Witness for C2 at a concrete signal and at a concrete clipped
strength-threshold pair. -/
theorem C2_masking_bound_witness :
    |(frameAt (protectCore ⟨[1, 0, 0, 0, 0, 0, 0, 0], 16000, 1⟩ metadataProfile
          ⟨0, 0, 0, 0⟩).signal.samples 0).getD 1 0 -
        (frameAt [1, 0, 0, 0, 0, 0, 0, 0] 0).getD 1 0| ≤
      maskT (frameAt [1, 0, 0, 0, 0, 0, 0, 0] 0) 1 ∧
    embedMag 2 5 = 5 :=
  ⟨C2_masking_bound.1 ⟨[1, 0, 0, 0, 0, 0, 0, 0], 16000, 1⟩ metadataProfile ⟨0, 0, 0, 0⟩ 0 1,
   C2_masking_bound.2 2 5 (by norm_num) (by norm_num)⟩

/-- C4: for every profile, the signal returned by `protect` has the same
channel count, the same sample rate and the same sample count as the
input; the duration is in fact preserved exactly, hence differs by no more
than one temporal-jitter cross-fade window. -/
theorem C4_shape_preservation (s : AudioSignal) (p : ProtectionProfile)
    (w : WatermarkPayload) :
    (protectCore s p w).signal.channels = s.channels ∧
    (protectCore s p w).signal.sampleRate = s.sampleRate ∧
    (protectCore s p w).signal.samples.length = s.samples.length ∧
    (protectCore s p w).signal.duration = s.duration ∧
    (0 ≤ p.temporal_jitter_ms →
      |(protectCore s p w).signal.duration - s.duration| ≤ p.temporal_jitter_ms / 1000) := by
  have hlen : (protectCore s p w).signal.samples.length = s.samples.length :=
    processFrames_length p (payloadSeed w) s.sampleRate 0 s.samples
  have hdur : (protectCore s p w).signal.duration = s.duration := by
    unfold AudioSignal.duration
    rw [hlen]
    rfl
  refine ⟨rfl, rfl, hlen, hdur, fun hj => ?_⟩
  rw [hdur, sub_self, abs_zero]
  positivity

/-- Witness for C4 at a concrete signal and the light profile. -/
theorem C4_shape_preservation_witness :
    |(protectCore ⟨[1, 0, 0, 0, 0, 0, 0, 0, 1], 16000, 1⟩ lightProfile
        ⟨0, 0, 0, 0⟩).signal.duration -
        AudioSignal.duration ⟨[1, 0, 0, 0, 0, 0, 0, 0, 1], 16000, 1⟩| ≤
      lightProfile.temporal_jitter_ms / 1000 :=
  (C4_shape_preservation ⟨[1, 0, 0, 0, 0, 0, 0, 0, 1], 16000, 1⟩ lightProfile
    ⟨0, 0, 0, 0⟩).2.2.2.2 (by norm_num [lightProfile])

/-- C7: an input shorter than one analysis frame makes `protect` report an
`InputTooShort` error and no protection result. -/
theorem C7_input_too_short (s : AudioSignal) (p : ProtectionProfile)
    (w : WatermarkPayload) (h : s.samples.length < FRAME_SIZE) :
    protect s p w = Except.error ProtectError.inputTooShort := by
  unfold protect
  rw [if_pos h]

/-- Witness for C7 at a concrete three-sample signal. -/
theorem C7_input_too_short_witness :
    protect ⟨[1, 2, 3], 44100, 1⟩ mediumProfile ⟨0, 0, 0, 0⟩ =
      Except.error ProtectError.inputTooShort :=
  C7_input_too_short ⟨[1, 2, 3], 44100, 1⟩ mediumProfile ⟨0, 0, 0, 0⟩ (by decide)

/-- C8: when the sample rate cannot support a declared band (Nyquist below
the band's lower edge), `protect` still succeeds, the band is recorded in
the result's applied-parameters record of skipped bands, and the band is
not among the active bands used for embedding. -/
theorem C8_unsupported_band_skip (s : AudioSignal) (p : ProtectionProfile)
    (w : WatermarkPayload) (bd : Nat × Nat)
    (hlen : FRAME_SIZE ≤ s.samples.length)
    (hbd : bd ∈ p.frequency_bands)
    (hnyq : (s.sampleRate : ℚ) / 2 < (bd.1 : ℚ)) :
    protect s p w = Except.ok (protectCore s p w) ∧
    bd ∈ (protectCore s p w).skippedBands ∧
    bd ∉ activeBands s.sampleRate p.frequency_bands := by
  have hnat : ¬ (2 * bd.1 ≤ s.sampleRate) := by
    intro hle
    have hq : (2 * bd.1 : ℚ) ≤ (s.sampleRate : ℚ) := by exact_mod_cast hle
    have : (bd.1 : ℚ) ≤ (s.sampleRate : ℚ) / 2 := by linarith
    linarith
  refine ⟨?_, ?_, ?_⟩
  · unfold protect
    rw [if_neg (by omega)]
  · show bd ∈ p.frequency_bands.filter (fun b => !(nyqSupports s.sampleRate b))
    rw [List.mem_filter]
    refine ⟨hbd, ?_⟩
    simp only [nyqSupports, Bool.not_eq_true', decide_eq_false_iff_not]
    exact hnat
  · intro hmem
    have h2 := (List.mem_filter.mp hmem).2
    simp only [nyqSupports, decide_eq_true_eq] at h2
    exact hnat h2

/-- Witness for C8: a 1 kHz sample rate (Nyquist 500 Hz) cannot support
the light profile's 2-4 kHz band. -/
theorem C8_unsupported_band_skip_witness :
    protect ⟨[0, 0, 0, 0, 0, 0, 0, 0], 1000, 1⟩ lightProfile ⟨0, 0, 0, 0⟩ =
        Except.ok (protectCore ⟨[0, 0, 0, 0, 0, 0, 0, 0], 1000, 1⟩ lightProfile ⟨0, 0, 0, 0⟩) ∧
    (2000, 4000) ∈ (protectCore ⟨[0, 0, 0, 0, 0, 0, 0, 0], 1000, 1⟩ lightProfile
        ⟨0, 0, 0, 0⟩).skippedBands ∧
    (2000, 4000) ∉ activeBands 1000 lightProfile.frequency_bands :=
  C8_unsupported_band_skip ⟨[0, 0, 0, 0, 0, 0, 0, 0], 1000, 1⟩ lightProfile ⟨0, 0, 0, 0⟩
    (2000, 4000) (by decide) (by decide) (by norm_num)

end AudioProtect

namespace AudioProtect

/-- C5: in the profile table, `watermark_strength`, `mfcc_disruption`,
`embedding_rate` and the number of frequency bands are each non-decreasing
across Light, Medium, Aggressive, Nuclear. -/
theorem C5_profile_table_monotone :
    (lightProfile.watermark_strength ≤ mediumProfile.watermark_strength ∧
      mediumProfile.watermark_strength ≤ aggressiveProfile.watermark_strength ∧
      aggressiveProfile.watermark_strength ≤ nuclearProfile.watermark_strength) ∧
    (lightProfile.mfcc_disruption ≤ mediumProfile.mfcc_disruption ∧
      mediumProfile.mfcc_disruption ≤ aggressiveProfile.mfcc_disruption ∧
      aggressiveProfile.mfcc_disruption ≤ nuclearProfile.mfcc_disruption) ∧
    (lightProfile.embedding_rate ≤ mediumProfile.embedding_rate ∧
      mediumProfile.embedding_rate ≤ aggressiveProfile.embedding_rate ∧
      aggressiveProfile.embedding_rate ≤ nuclearProfile.embedding_rate) ∧
    (lightProfile.frequency_bands.length ≤ mediumProfile.frequency_bands.length ∧
      mediumProfile.frequency_bands.length ≤ aggressiveProfile.frequency_bands.length ∧
      aggressiveProfile.frequency_bands.length ≤ nuclearProfile.frequency_bands.length) := by
  refine ⟨⟨?_, ?_, ?_⟩, ⟨?_, ?_, ?_⟩, ⟨?_, ?_, ?_⟩, ⟨?_, ?_, ?_⟩⟩ <;>
    norm_num [lightProfile, mediumProfile, aggressiveProfile, nuclearProfile,
      ProtectionProfile.embedding_rate]

/-- C10: `checkPythonService` is total over all service outcomes; it
returns `true` exactly when the health endpoint responded with status
`ok`, and `false` on every failure instead of propagating the error. -/
theorem C10_check_python_service_total :
    (∀ o : HealthOutcome,
      checkPythonService o = true ↔ o = HealthOutcome.responded (some "ok")) ∧
    (∀ msg : String, checkPythonService (HealthOutcome.failed msg) = false) := by
  constructor
  · intro o
    cases o with
    | responded st => simp [checkPythonService]
    | failed msg => simp [checkPythonService]
  · intro msg
    rfl

/-- C9 fails as stated: for the copy-through formats the output is indeed
a byte-for-byte copy, but precisely because nothing is embedded the
metadata-based verify check reports whatever the input already carried —
here a WAV file whose comments already contain the `NO_AI_TRAINING`
marker is copied unchanged and still verifies as protected, not as
`isProtected == false`. -/
theorem C9_copy_counterexample :
    protectAudioFile ⟨".wav", [0, 1, 2], ["NO_AI_TRAINING"]⟩
        ⟨"A", "T", "metadata", "R", ""⟩ "2024-01-01T00:00:00Z" =
      Except.ok ⟨".wav", [0, 1, 2], ["NO_AI_TRAINING"]⟩ ∧
    hasMetadataProtection ⟨".wav", [0, 1, 2], ["NO_AI_TRAINING"]⟩ = true := by
  constructor
  · rfl
  · decide

/-- C9 (amended): for every input file with extension .flac, .ogg, .wav,
.m4a or .aac, `protectAudioFile` returns a byte-for-byte copy of the
input, so the metadata-based verify check on the output reports exactly
what it reports on the input — in particular `isProtected == false`
whenever the input carries no protection marker. -/
theorem C9_copy_formats (f : AudioFileModel) (o : ProtectOptions) (ts : String)
    (g : AudioFileModel)
    (hext : f.ext = ".flac" ∨ f.ext = ".ogg" ∨ f.ext = ".wav" ∨
      f.ext = ".m4a" ∨ f.ext = ".aac")
    (hok : protectAudioFile f o ts = Except.ok g) :
    g = f ∧ (hasMetadataProtection f = false → hasMetadataProtection g = false) := by
  have hmp3 : ¬ f.ext = ".mp3" := by
    rcases hext with h | h | h | h | h <;> simp [h]
  unfold protectAudioFile at hok
  rw [if_neg hmp3, if_pos hext] at hok
  simp only [Except.ok.injEq] at hok
  subst hok
  exact ⟨rfl, fun h => h⟩

/-- Witness for C9 (amended) at a concrete FLAC file without markers. -/
theorem C9_copy_formats_witness :
    (⟨".flac", [7, 8], ["hello"]⟩ : AudioFileModel) = ⟨".flac", [7, 8], ["hello"]⟩ ∧
    (hasMetadataProtection ⟨".flac", [7, 8], ["hello"]⟩ = false →
      hasMetadataProtection ⟨".flac", [7, 8], ["hello"]⟩ = false) :=
  C9_copy_formats ⟨".flac", [7, 8], ["hello"]⟩ ⟨"A", "T", "metadata", "R", ""⟩ "t"
    ⟨".flac", [7, 8], ["hello"]⟩ (Or.inl rfl) rfl

end AudioProtect

namespace AudioProtect

/-! ## Averaging, maxima and profile-table helper lemmas -/

theorem sum_of_all_eq_one (l : List ℚ) (h : ∀ x ∈ l, x = 1) :
    l.sum = (l.length : ℚ) := by
  induction l with
  | nil => simp
  | cons a t ih =>
      simp only [List.sum_cons, List.length_cons]
      rw [h a (by simp), ih (fun x hx => h x (by simp [hx]))]
      push_cast
      ring

theorem avg_of_all_eq_one (l : List ℚ) (h : ∀ x ∈ l, x = 1) (hne : l ≠ []) :
    avg l = 1 := by
  unfold avg
  rw [sum_of_all_eq_one l h]
  have hpos : 0 < l.length := List.length_pos.mpr hne
  have hne' : ((l.length : ℚ)) ≠ 0 := by positivity
  exact div_self hne'

theorem avg_of_all_eq_zero (l : List ℚ) (h : ∀ x ∈ l, x = 0) : avg l = 0 := by
  unfold avg
  rw [List.sum_eq_zero h, zero_div]

theorem le_listMax (l : List ℚ) (x : ℚ) (h : x ∈ l) : x ≤ listMax l := by
  unfold listMax
  induction l with
  | nil => cases h
  | cons a t ih =>
      rcases List.mem_cons.mp h with rfl | hmem
      · exact le_max_left _ _
      · exact le_trans (ih hmem) (le_max_right _ _)

theorem listMax_of_all_eq_zero (l : List ℚ) (h : ∀ x ∈ l, x = 0) : listMax l = 0 := by
  unfold listMax
  induction l with
  | nil => rfl
  | cons a t ih =>
      simp only [List.foldr_cons]
      rw [h a (by simp), show List.foldr max 0 t = listMax t from rfl,
        show listMax t = 0 from by
          unfold listMax
          exact ih (fun x hx => h x (by simp [hx]))]
      simp

theorem adv_strength_pos (p : ProtectionProfile) (hp : p ∈ adversarialProfiles) :
    0 < p.watermark_strength := by
  simp only [adversarialProfiles, List.mem_cons, List.not_mem_nil, or_false] at hp
  rcases hp with rfl | rfl | rfl | rfl <;>
    norm_num [lightProfile, mediumProfile, aggressiveProfile, nuclearProfile]

theorem adv_band_low_pos (p : ProtectionProfile) (hp : p ∈ adversarialProfiles)
    (bd : Nat × Nat) (hbd : bd ∈ p.frequency_bands) : 0 < bd.1 := by
  simp only [adversarialProfiles, List.mem_cons, List.not_mem_nil, or_false] at hp
  rcases hp with rfl | rfl | rfl | rfl <;>
    · simp only [lightProfile, mediumProfile, aggressiveProfile, nuclearProfile,
        List.mem_cons, List.not_mem_nil, or_false] at hbd
      rcases hbd with rfl | hbd <;> first
        | decide
        | (rcases hbd with rfl | hbd <;> first
            | decide
            | (rcases hbd with rfl | hbd <;> first
                | decide
                | (rcases hbd with rfl <;> decide)))

end AudioProtect

namespace AudioProtect

/-! ## Bin classification lemmas -/

theorem activeBands_subset (rate : Nat) (bands : List (Nat × Nat)) :
    ∀ bd ∈ activeBands rate bands, bd ∈ bands := by
  intro bd hbd
  exact (List.mem_filter.mp hbd).1

theorem binInBand_one_le (rate b : Nat) (bd : Nat × Nat) (hpos : 0 < bd.1)
    (h : binInBand rate b bd = true) : 1 ≤ b := by
  simp only [binInBand, Bool.and_eq_true, decide_eq_true_eq] at h
  rcases h with ⟨h1, _⟩
  cases b with
  | zero =>
      exfalso
      rw [Nat.zero_mul, Nat.le_zero, Nat.mul_eq_zero] at h1
      rcases h1 with h1 | h1
      · omega
      · exact absurd h1 (by decide)
  | succ n => omega

theorem isSSBin_one_le (rate b : Nat) (p : ProtectionProfile)
    (hp : p ∈ adversarialProfiles) (h : isSSBin rate p b = true) : 1 ≤ b := by
  simp only [isSSBin, List.any_eq_true] at h
  rcases h with ⟨bd, hbd, hin⟩
  have hbands : bd ∈ p.frequency_bands :=
    activeBands_subset rate p.frequency_bands bd
      ((List.dropLast_prefix _).subset hbd)
  exact binInBand_one_le rate b bd (adv_band_low_pos p hp bd hbands) hin

theorem isHFBin_one_le (rate b : Nat) (p : ProtectionProfile)
    (hp : p ∈ adversarialProfiles) (h : isHFBin rate p b = true) : 1 ≤ b := by
  simp only [isHFBin, Bool.and_eq_true] at h
  rcases h with ⟨hlast, _⟩
  rcases hget : (activeBands rate p.frequency_bands).getLast? with _ | bd
  · rw [hget] at hlast
    exact absurd hlast (by simp)
  · rw [hget] at hlast
    have hmem : bd ∈ activeBands rate p.frequency_bands := by
      rcases List.mem_getLast?_eq_getLast (l := activeBands rate p.frequency_bands)
        (x := bd) (by rw [hget]; rfl) with ⟨hne, rfl⟩
      exact List.getLast_mem hne
    have hbands : bd ∈ p.frequency_bands :=
      activeBands_subset rate p.frequency_bands bd hmem
    exact binInBand_one_le rate b bd (adv_band_low_pos p hp bd hbands) hlast

theorem isHFBin_not_ss (rate b : Nat) (p : ProtectionProfile)
    (h : isHFBin rate p b = true) : isSSBin rate p b = false := by
  simp only [isHFBin, Bool.and_eq_true, Bool.not_eq_true'] at h
  exact h.2

theorem jitterBin_lt (o : Int) (b : Nat) : jitterBin o b < FRAME_SIZE := by
  unfold jitterBin
  have h1 : ((b : Int) - 1 + o) % ((FRAME_SIZE : Int) - 1) < (FRAME_SIZE : Int) - 1 :=
    Int.emod_lt_of_pos _ (by decide)
  have h2 : 0 ≤ ((b : Int) - 1 + o) % ((FRAME_SIZE : Int) - 1) :=
    Int.emod_nonneg _ (by decide)
  simp only [FRAME_SIZE] at h1 h2 ⊢
  omega

theorem maskT_congr (fr fr' : List ℚ) (b : Nat) (h : fr'.getD 0 0 = fr.getD 0 0) :
    maskT fr' b = maskT fr b := by
  unfold maskT
  rw [h]

end AudioProtect

namespace AudioProtect

/-! ## Pure-tone embedding value lemmas -/

theorem processFrame_getD_DC (p : ProtectionProfile) (seed rate f : Nat) (fr : List ℚ)
    (hlen : 0 < fr.length) :
    (processFrame p seed rate f fr).getD 0 0 = fr.getD 0 0 := by
  by_cases he : eligibleFrame seed p f = true
  · rw [processFrame_getD_eligible p seed rate f 0 fr he hlen, if_pos rfl]
  · rw [processFrame_getD_not_eligible p seed rate f 0 fr he]

theorem processFrame_ss_value (p : ProtectionProfile) (hp : p ∈ adversarialProfiles)
    (seed rate f b : Nat) (fr : List ℚ)
    (he : eligibleFrame seed p f = true)
    (hfr : fr.length = FRAME_SIZE)
    (hz : ∀ j, 1 ≤ j → j < FRAME_SIZE → fr.getD j 0 = 0)
    (hss : isSSBin rate p b = true)
    (hb : b < FRAME_SIZE) :
    (processFrame p seed rate f fr).getD b 0 =
      noiseSign seed 0 f b * embedMag p.watermark_strength (maskT fr b) := by
  have hb1 : 1 ≤ b := isSSBin_one_le rate b p hp hss
  have hb0 : b ≠ 0 := by omega
  have hzb : fr.getD b 0 = 0 := hz b hb1 hb
  have hhf : isHFBin rate p b = false := by
    simp only [isHFBin, Bool.and_eq_false_iff]
    right
    rw [hss]
    rfl
  have hmf : mfccDelta p seed f b fr = 0 := by
    unfold mfccDelta
    by_cases hm : mfccSel seed f b = true
    · rw [if_pos hm, hzb, mul_zero]
    · rw [if_neg hm]
  have hjd : jitterDelta p seed rate f b fr = 0 := by
    unfold jitterDelta
    rw [hz _ (jitterBin_pos _ _) (jitterBin_lt _ _), hzb]
    simp
  have hhd : hfDelta p seed rate f b fr = 0 := by
    unfold hfDelta
    rw [if_neg (by simp [hhf])]
  have htot : totalDelta p seed rate f b fr =
      noiseSign seed 0 f b * embedMag p.watermark_strength (maskT fr b) := by
    unfold totalDelta
    rw [hmf, hjd, hhd]
    unfold ssDelta
    rw [if_pos hss]
    ring
  have habs : |noiseSign seed 0 f b * embedMag p.watermark_strength (maskT fr b)| ≤
      maskT fr b := by
    rw [abs_mul, noiseSign_abs, one_mul, abs_of_nonneg (embedMag_nonneg _ _)]
    exact embedMag_le _ _ (maskT_nonneg fr b)
  rw [processFrame_getD_eligible p seed rate f b fr he (by rw [hfr]; exact hb),
    if_neg hb0, htot, clampTo_of_abs_le _ _ habs, hzb, zero_add]

theorem numFramesOf_protectCore (s : AudioSignal) (p : ProtectionProfile)
    (w : WatermarkPayload) :
    numFramesOf (protectCore s p w).signal = numFramesOf s := by
  unfold numFramesOf
  show (processFrames p (payloadSeed w) s.sampleRate 0 s.samples).length / FRAME_SIZE = _
  rw [processFrames_length]

theorem frameAt_protectCore_of_lt (s : AudioSignal) (p : ProtectionProfile)
    (w : WatermarkPayload) (i : Nat) (hi : i < numFramesOf s) :
    frameAt (protectCore s p w).signal.samples i =
      processFrame p (payloadSeed w) s.sampleRate i (frameAt s.samples i) := by
  rw [frameAt_protectCore, if_pos ?_]
  have h := (Nat.le_div_iff_mul_le FRAME_SIZE_pos).mp (Nat.succ_le_of_lt hi)
  simp only [FRAME_SIZE] at h ⊢
  omega

theorem frameAt_length_of_lt (l : List ℚ) (i : Nat) (hi : i < l.length / FRAME_SIZE) :
    (frameAt l i).length = FRAME_SIZE := by
  unfold frameAt
  rw [List.length_take, List.length_drop]
  have h := (Nat.le_div_iff_mul_le FRAME_SIZE_pos).mp (Nat.succ_le_of_lt hi)
  simp only [FRAME_SIZE] at h ⊢
  omega

theorem slotScoreSS_protected (s : AudioSignal) (p : ProtectionProfile)
    (w : WatermarkPayload) (hp : p ∈ adversarialProfiles) (hPT : PureTone s)
    (f b : Nat) (hf : f < numFramesOf s)
    (he : eligibleFrame (payloadSeed w) p f = true)
    (hss : isSSBin s.sampleRate p b = true) (hb : b < FRAME_SIZE) :
    slotScoreSS (payloadSeed w) p (protectCore s p w).signal.samples (f, b) = 1 := by
  have hfr := frameAt_protectCore_of_lt s p w f hf
  simp only [slotScoreSS]
  rw [hfr]
  obtain ⟨hhead, hz⟩ := hPT f hf
  have hlen8 : (frameAt s.samples f).length = FRAME_SIZE := frameAt_length_of_lt _ _ hf
  have hval := processFrame_ss_value p hp (payloadSeed w) s.sampleRate f b
    (frameAt s.samples f) he hlen8 (fun j hj1 hj2 => hz j hj2 hj1) hss hb
  rw [hval]
  have hdc : (processFrame p (payloadSeed w) s.sampleRate f
      (frameAt s.samples f)).getD 0 0 = (frameAt s.samples f).getD 0 0 :=
    processFrame_getD_DC _ _ _ _ _ (by rw [hlen8]; decide)
  rw [maskT_congr (frameAt s.samples f) _ b hdc]
  have hTpos : 0 < maskT (frameAt s.samples f) b := maskT_pos _ b hhead
  have hmne : embedMag p.watermark_strength (maskT (frameAt s.samples f) b) ≠ 0 :=
    ne_of_gt (embedMag_pos _ _ (adv_strength_pos p hp) hTpos)
  rw [show noiseSign (payloadSeed w) 0 f b *
      (noiseSign (payloadSeed w) 0 f b *
        embedMag p.watermark_strength (maskT (frameAt s.samples f) b)) /
      embedMag p.watermark_strength (maskT (frameAt s.samples f) b) =
      noiseSign (payloadSeed w) 0 f b * noiseSign (payloadSeed w) 0 f b *
        (embedMag p.watermark_strength (maskT (frameAt s.samples f) b) /
          embedMag p.watermark_strength (maskT (frameAt s.samples f) b)) from by ring,
    div_self hmne, noiseSign_mul_self, one_mul]

theorem ssScore_protected (s : AudioSignal) (p : ProtectionProfile)
    (w : WatermarkPayload) (hp : p ∈ adversarialProfiles) (hPT : PureTone s)
    (hne : ssSlots (payloadSeed w) p s.sampleRate (numFramesOf s) ≠ []) :
    ssScore (protectCore s p w).signal w p = 1 := by
  unfold ssScore
  have hrate : (protectCore s p w).signal.sampleRate = s.sampleRate := rfl
  have hnum : numFramesOf (protectCore s p w).signal = numFramesOf s :=
    numFramesOf_protectCore s p w
  rw [hrate, hnum]
  apply avg_of_all_eq_one
  · intro x hx
    rcases List.mem_map.mp hx with ⟨fb, hfb, rfl⟩
    rcases List.mem_flatMap.mp hfb with ⟨f, hfidx, hbmem⟩
    rcases List.mem_map.mp hbmem with ⟨b, hbbin, rfl⟩
    have hf1 := List.mem_filter.mp hfidx
    have hb1 := List.mem_filter.mp hbbin
    exact slotScoreSS_protected s p w hp hPT f b (List.mem_range.mp hf1.1) hf1.2
      hb1.2 (List.mem_range.mp hb1.1)
  · simp only [ne_eq, List.map_eq_nil_iff]
    exact hne

theorem verify_detects_of_ssScore_one (s' : AudioSignal) (w : WatermarkPayload)
    (p : ProtectionProfile) (hp : p ∈ adversarialProfiles)
    (h1 : ssScore s' w p = 1) :
    (verify s' (some w)).is_protected = true ∧
      CONF_THRESHOLD < (verify s' (some w)).confidence := by
  have hconf : confidenceOf s' w = 1 := by
    unfold confidenceOf
    have hmem : profileConf s' w p ∈ adversarialProfiles.map (profileConf s' w) :=
      List.mem_map.mpr ⟨p, hp, rfl⟩
    have hge : 1 ≤ profileConf s' w p := by
      rw [← h1]
      unfold profileConf
      exact le_max_left _ _
    exact min_eq_left (le_trans hge (le_listMax _ _ hmem))
  constructor
  · show decide (CONF_THRESHOLD < confidenceOf s' w) = true
    rw [hconf]
    exact decide_eq_true (by norm_num [CONF_THRESHOLD])
  · show CONF_THRESHOLD < confidenceOf s' w
    rw [hconf]
    norm_num [CONF_THRESHOLD]

end AudioProtect

namespace AudioProtect

/-! ## Zero-content lemmas: undetectability without signature energy -/

theorem getD_zero_of_all_zero (l : List ℚ) (h : ∀ x ∈ l, x = 0) (b : Nat) :
    l.getD b 0 = 0 := by
  rw [List.getD_eq_getElem?_getD]
  rcases hx : l[b]? with _ | v
  · rfl
  · exact h v (List.getElem?_mem hx)

theorem processFrame_zero_frame (p : ProtectionProfile) (seed rate f : Nat)
    (fr : List ℚ) (hz : ∀ b, fr.getD b 0 = 0) :
    ∀ b, (processFrame p seed rate f fr).getD b 0 = 0 := by
  intro b
  by_cases he : eligibleFrame seed p f = true
  · by_cases hb : b < fr.length
    · rw [processFrame_getD_eligible p seed rate f b fr he hb]
      by_cases h0 : b = 0
      · rw [if_pos h0]
        exact hz 0
      · rw [if_neg h0]
        have hT : maskT fr b = 0 := by
          unfold maskT
          rw [hz 0]
          simp
        rw [hT, clampTo_zero, hz b, add_zero]
    · push_neg at hb
      exact List.getD_eq_default _ _ (by rw [processFrame_length]; exact hb)
  · rw [processFrame_getD_not_eligible p seed rate f b fr he]
    exact hz b

theorem DCOnly_protectCore_of_zero (s : AudioSignal) (p : ProtectionProfile)
    (w : WatermarkPayload)
    (hz : ∀ i, i < numFramesOf s → ∀ b, (frameAt s.samples i).getD b 0 = 0) :
    DCOnly (protectCore s p w).signal := by
  intro i hi b hb hb1
  rw [numFramesOf_protectCore] at hi
  rw [frameAt_protectCore_of_lt s p w i hi]
  exact processFrame_zero_frame p (payloadSeed w) s.sampleRate i _ (hz i hi) b

theorem ssScore_zero_of_DCOnly (s : AudioSignal) (w : WatermarkPayload)
    (p : ProtectionProfile) (hp : p ∈ adversarialProfiles) (hd : DCOnly s) :
    ssScore s w p = 0 := by
  unfold ssScore
  apply avg_of_all_eq_zero
  intro x hx
  rcases List.mem_map.mp hx with ⟨fb, hfb, rfl⟩
  rcases List.mem_flatMap.mp hfb with ⟨f, hfidx, hbmem⟩
  rcases List.mem_map.mp hbmem with ⟨b, hbbin, rfl⟩
  have hf1 := List.mem_filter.mp hfidx
  have hb1 := List.mem_filter.mp hbbin
  simp only [slotScoreSS]
  rw [hd f (List.mem_range.mp hf1.1) b (List.mem_range.mp hb1.1)
    (isSSBin_one_le s.sampleRate b p hp hb1.2)]
  simp

theorem hfScore_zero_of_DCOnly (s : AudioSignal) (w : WatermarkPayload)
    (p : ProtectionProfile) (hp : p ∈ adversarialProfiles) (hd : DCOnly s) :
    hfScore s w p = 0 := by
  unfold hfScore
  apply avg_of_all_eq_zero
  intro x hx
  rcases List.mem_map.mp hx with ⟨fb, hfb, rfl⟩
  rcases List.mem_flatMap.mp hfb with ⟨f, hfidx, hbmem⟩
  rcases List.mem_map.mp hbmem with ⟨b, hbbin, rfl⟩
  have hf1 := List.mem_filter.mp hfidx
  have hb1 := List.mem_filter.mp hbbin
  simp only [slotScoreHF]
  rw [hd f (List.mem_range.mp hf1.1) b (List.mem_range.mp hb1.1)
    (isHFBin_one_le s.sampleRate b p hp hb1.2)]
  simp

theorem mfccScore_zero_of_DCOnly (s : AudioSignal) (w : WatermarkPayload)
    (hd : DCOnly s) : mfccScore s w = 0 := by
  unfold mfccScore
  apply avg_of_all_eq_zero
  intro x hx
  rcases List.mem_flatMap.mp hx with ⟨f, hfidx, hbmem⟩
  rcases List.mem_map.mp hbmem with ⟨b, hbbin, rfl⟩
  have hf1 := List.mem_filter.mp hfidx
  have hb1 := List.mem_filter.mp hbbin
  have hb2 := hb1.2
  simp only [mfccBinList, Bool.and_eq_true, decide_eq_true_eq] at hb2
  rw [hd f (List.mem_range.mp hf1.1) b (List.mem_range.mp hb1.1) hb2.1]
  simp

theorem jitterScoreOf_zero_of_DCOnly (s : AudioSignal) (w : WatermarkPayload)
    (p : ProtectionProfile) (hd : DCOnly s) : jitterScoreOf s w p = 0 := by
  unfold jitterScoreOf
  apply avg_of_all_eq_zero
  intro x hx
  rcases List.mem_flatMap.mp hx with ⟨f, hfidx, hbmem⟩
  rcases List.mem_map.mp hbmem with ⟨b, hbbin, rfl⟩
  have hf1 := List.mem_filter.mp hfidx
  have hb1 := List.mem_filter.mp hbbin
  have hb2 : 1 ≤ b := by
    have := hb1.2
    simp only [nonDCBinList, decide_eq_true_eq] at this ⊢
    exact this
  have hfn := List.mem_range.mp hf1.1
  rw [hd f hfn b (List.mem_range.mp hb1.1) hb2,
    hd f hfn _ (jitterBin_lt _ _) (jitterBin_pos _ _)]
  simp

theorem verify_false_of_DCOnly (s : AudioSignal) (w : WatermarkPayload)
    (hd : DCOnly s) :
    (verify s (some w)).is_protected = false ∧
    (verify s (some w)).confidence = 0 := by
  have hall : ∀ q ∈ adversarialProfiles, profileConf s w q = 0 := by
    intro q hq
    unfold profileConf
    rw [ssScore_zero_of_DCOnly s w q hq hd, hfScore_zero_of_DCOnly s w q hq hd,
      mfccScore_zero_of_DCOnly s w hd, jitterScoreOf_zero_of_DCOnly s w q hd]
    simp
  have hconf : confidenceOf s w = 0 := by
    unfold confidenceOf
    rw [listMax_of_all_eq_zero _ (by
      intro x hx
      rcases List.mem_map.mp hx with ⟨q, hq, rfl⟩
      exact hall q hq)]
    simp
  constructor
  · show decide (CONF_THRESHOLD < confidenceOf s w) = false
    rw [hconf]
    exact decide_eq_false (by norm_num [CONF_THRESHOLD])
  · exact hconf

end AudioProtect

namespace AudioProtect

/-- C3 fails as stated: a silent input has no masking headroom, so every
module's addition is clamped to zero (the spec's own MaskingDegenerate
recovery), the protected buffer equals the input, and the verifier —
which must also satisfy the negative control — reports
`is_protected = false` for the round trip under the non-metadata medium
profile. -/
theorem C3_roundtrip_counterexample :
    protect ⟨[0, 0, 0, 0, 0, 0, 0, 0], 16000, 1⟩ mediumProfile ⟨0, 0, 0, 0⟩ =
      Except.ok (protectCore ⟨[0, 0, 0, 0, 0, 0, 0, 0], 16000, 1⟩ mediumProfile ⟨0, 0, 0, 0⟩) ∧
    (verify (protectCore ⟨[0, 0, 0, 0, 0, 0, 0, 0], 16000, 1⟩ mediumProfile
        ⟨0, 0, 0, 0⟩).signal (some ⟨0, 0, 0, 0⟩)).is_protected = false := by
  constructor
  · unfold protect
    rw [if_neg (by decide)]
  · refine (verify_false_of_DCOnly _ _ ?_).1
    apply DCOnly_protectCore_of_zero
    intro i hi b
    have h1 : numFramesOf ⟨[0, 0, 0, 0, 0, 0, 0, 0], 16000, 1⟩ = 1 := rfl
    rw [h1] at hi
    have hi0 : i = 0 := by omega
    subst hi0
    show (frameAt ([0, 0, 0, 0, 0, 0, 0, 0] : List ℚ) 0).getD b 0 = 0
    rw [show frameAt ([0, 0, 0, 0, 0, 0, 0, 0] : List ℚ) 0 =
      [0, 0, 0, 0, 0, 0, 0, 0] from rfl]
    apply getD_zero_of_all_zero
    intro x hx
    simpa using hx

/-- C3 (amended): for every non-metadata profile, payload, and input with
detectable headroom — a pure-tone signal (nonzero masker, no energy at
the embedding bins) with at least one eligible spread-spectrum slot —
`protect` succeeds and `verify` on the protected signal with the same
payload reports `is_protected = true` with confidence above the
documented threshold. -/
theorem C3_roundtrip_detection (s : AudioSignal) (p : ProtectionProfile)
    (w : WatermarkPayload) (hp : p ∈ adversarialProfiles) (hPT : PureTone s)
    (hne : ssSlots (payloadSeed w) p s.sampleRate (numFramesOf s) ≠ []) :
    protect s p w = Except.ok (protectCore s p w) ∧
    (verify (protectCore s p w).signal (some w)).is_protected = true ∧
    CONF_THRESHOLD < (verify (protectCore s p w).signal (some w)).confidence := by
  have hlen : FRAME_SIZE ≤ s.samples.length := by
    by_contra hcon
    push_neg at hcon
    have h0 : numFramesOf s = 0 := by
      unfold numFramesOf
      exact Nat.div_eq_of_lt hcon
    apply hne
    unfold ssSlots eligibleFrameIdxs
    rw [h0]
    rfl
  refine ⟨?_, ?_⟩
  · unfold protect
    rw [if_neg (by omega)]
  · exact verify_detects_of_ssScore_one _ w p hp (ssScore_protected s p w hp hPT hne)

/-- Witness for C3 (amended): a two-frame pure tone at 16 kHz, protected
under the medium profile. -/
theorem C3_roundtrip_detection_witness :
    protect ⟨[4, 0, 0, 0, 0, 0, 0, 0, 4, 0, 0, 0, 0, 0, 0, 0], 16000, 1⟩ mediumProfile
        ⟨0, 0, 0, 0⟩ =
      Except.ok (protectCore ⟨[4, 0, 0, 0, 0, 0, 0, 0, 4, 0, 0, 0, 0, 0, 0, 0], 16000, 1⟩
        mediumProfile ⟨0, 0, 0, 0⟩) ∧
    (verify (protectCore ⟨[4, 0, 0, 0, 0, 0, 0, 0, 4, 0, 0, 0, 0, 0, 0, 0], 16000, 1⟩
        mediumProfile ⟨0, 0, 0, 0⟩).signal (some ⟨0, 0, 0, 0⟩)).is_protected = true ∧
    CONF_THRESHOLD < (verify (protectCore
        ⟨[4, 0, 0, 0, 0, 0, 0, 0, 4, 0, 0, 0, 0, 0, 0, 0], 16000, 1⟩
        mediumProfile ⟨0, 0, 0, 0⟩).signal (some ⟨0, 0, 0, 0⟩)).confidence :=
  C3_roundtrip_detection ⟨[4, 0, 0, 0, 0, 0, 0, 0, 4, 0, 0, 0, 0, 0, 0, 0], 16000, 1⟩
    mediumProfile ⟨0, 0, 0, 0⟩
    (List.mem_cons_of_mem _ (List.mem_cons_self _ _))
    (by
      intro i hi
      have h2 : numFramesOf
          ⟨[4, 0, 0, 0, 0, 0, 0, 0, 4, 0, 0, 0, 0, 0, 0, 0], 16000, 1⟩ = 2 := rfl
      rw [h2] at hi
      interval_cases i <;>
        exact ⟨by norm_num [frameAt, FRAME_SIZE], by
          intro b hb hb1
          simp only [FRAME_SIZE] at hb
          interval_cases b <;> simp [frameAt, FRAME_SIZE]⟩)
    (by decide)

/-- C6 fails as stated: `verify` is a function of the candidate bytes and
the claimed payload alone, so a plain, never-protected signal whose bin
contents happen to correlate with the payload's regenerated signature is
reported as protected — here a concrete eight-sample buffer at 16 kHz
triggers a full-confidence detection for the zero payload. -/
theorem C6_negative_control_counterexample :
    (verify ⟨[4, -3/2750, 1/1000, -3/3250, 3/3500, 0, 0, 0], 16000, 1⟩
      (some ⟨0, 0, 0, 0⟩)).is_protected = true := by
  have hr : (⟨[4, -3/2750, 1/1000, -3/3250, 3/3500, 0, 0, 0], 16000, 1⟩ :
      AudioSignal).sampleRate = 16000 := rfl
  have hn : numFramesOf ⟨[4, -3/2750, 1/1000, -3/3250, 3/3500, 0, 0, 0],
      16000, 1⟩ = 1 := rfl
  have habs : |(4:ℚ)| = 4 := abs_of_pos (by norm_num)
  have h1 : ssScore ⟨[4, -3/2750, 1/1000, -3/3250, 3/3500, 0, 0, 0], 16000, 1⟩
      ⟨0, 0, 0, 0⟩ mediumProfile = 1 := by
    unfold ssScore
    rw [hr, hn, show ssSlots (payloadSeed ⟨0, 0, 0, 0⟩) mediumProfile 16000 1 =
      [(0, 1), (0, 2), (0, 3), (0, 4)] from by decide]
    apply avg_of_all_eq_one _ ?_ (by simp)
    intro x hx
    simp only [List.map_cons, List.map_nil, List.mem_cons, List.not_mem_nil,
      or_false] at hx
    rcases hx with rfl | rfl | rfl | rfl <;>
      norm_num [slotScoreSS, payloadSeed, noiseSign, maskT, embedMag, frameAt,
        FRAME_SIZE, mediumProfile, List.getD_cons_zero, List.getD_cons_succ,
        habs, min_def, max_def]
  exact (verify_detects_of_ssScore_one _ _ mediumProfile
    (List.mem_cons_of_mem _ (List.mem_cons_self _ _)) h1).1

/-- C6 (amended): for every claimed payload and every signal carrying no
signature-correlated content (no energy outside the DC/masker bin of any
analysis frame), `verify` reports `is_protected = false` with confidence
zero — at or below the documented threshold — and a payload matching no
detectable signature yields this report rather than an error (`verify` is
total). -/
theorem C6_negative_control (s : AudioSignal) (w : WatermarkPayload)
    (hd : DCOnly s) :
    (verify s (some w)).is_protected = false ∧
    (verify s (some w)).confidence = 0 ∧
    (verify s (some w)).confidence ≤ CONF_THRESHOLD := by
  obtain ⟨h1, h2⟩ := verify_false_of_DCOnly s w hd
  refine ⟨h1, h2, ?_⟩
  rw [h2]
  norm_num [CONF_THRESHOLD]

/-- Witness for C6 (amended) at a concrete unmodified buffer. -/
theorem C6_negative_control_witness :
    (verify ⟨[1, 0, 0, 0, 0, 0, 0, 0], 44100, 2⟩ (some ⟨5, 6, 7, 8⟩)).is_protected = false ∧
    (verify ⟨[1, 0, 0, 0, 0, 0, 0, 0], 44100, 2⟩ (some ⟨5, 6, 7, 8⟩)).confidence = 0 ∧
    (verify ⟨[1, 0, 0, 0, 0, 0, 0, 0], 44100, 2⟩ (some ⟨5, 6, 7, 8⟩)).confidence ≤
      CONF_THRESHOLD :=
  C6_negative_control ⟨[1, 0, 0, 0, 0, 0, 0, 0], 44100, 2⟩ ⟨5, 6, 7, 8⟩
    (by
      intro i hi
      have h1 : numFramesOf ⟨[1, 0, 0, 0, 0, 0, 0, 0], 44100, 2⟩ = 1 := rfl
      rw [h1] at hi
      interval_cases i <;>
        (intro b hb hb1
         simp only [FRAME_SIZE] at hb
         interval_cases b <;> simp [frameAt, FRAME_SIZE]))

end AudioProtect
